import Mathlib

/- Verification of the gologger asynchronous logger (src/main.go) against its
   specification.  The embedding is shallow: Go strings are Lean Strings, the
   buffered channel is a list (head = oldest pending message) plus its
   capacity, and every fallible external call the daemon makes (syslog
   connection, file open, close, write) is driven by an explicit environment
   recording the outcome of that call.  Methods of the Go struct Log become
   functions from a Log value to an updated Log value. -/

/-- Numeric values of the log/syslog priority constants used by the code
(RFC 5424 severities): LOG_ERR = 3, LOG_WARNING = 4, LOG_INFO = 6,
LOG_DEBUG = 7.  A larger Priority field admits more messages. -/
def LOG_ERR : Nat := 3

/-- Numeric value of syslog.LOG_WARNING. -/
def LOG_WARNING : Nat := 4

/-- Numeric value of syslog.LOG_INFO. -/
def LOG_INFO : Nat := 6

/-- Numeric value of syslog.LOG_DEBUG. -/
def LOG_DEBUG : Nat := 7

/-- Dynamic value passed as the cause argument of ERR, one constructor per
arm of the type switch in anyErrToString: a value implementing the error
interface (carrying the result of its Error method), a string, a byte, an
int, and any other value (carrying the string its percent-v formatting
produces). -/
inductive GoValue where
  | errVal (msg : String)
  | strVal (s : String)
  | byteVal (b : Nat)
  | intVal (n : Int)
  | otherVal (rep : String)
  deriving DecidableEq

/-- Rendering of the fmt verb percent-0-2-d: decimal, zero padded to width
two. -/
def pad2 (n : Nat) : String := if n < 10 then "0" ++ toString n else toString n

/-- Decimal rendering zero padded to width four, as the time layouts 2006
(year) and .0000 (fractional second) produce. -/
def pad4 (n : Nat) : String :=
  if n < 10 then "000" ++ toString n
  else if n < 100 then "00" ++ toString n
  else if n < 1000 then "0" ++ toString n
  else toString n

/-- Handle returned by syslog.New: the facility or priority it was opened
with and the tag. -/
structure SyslogHandle where
  facility : Nat
  tag : String
  deriving DecidableEq

/-- Handle returned by os.OpenFile: the file name, the open flags, the
permission bits, and whether the handle has since been closed. -/
structure FileHandle where
  name : String
  openFlags : Nat
  perm : Nat
  closed : Bool
  deriving DecidableEq

/-- State of the Go struct Log (src/main.go lines 13-23).  The buffered
channel logChan is a list of pending messages (head = oldest) together with
its capacity. -/
structure Log where
  logChan : List String
  logChanCap : Nat
  syslogWriter : Option SyslogHandle
  fileWriter : Option FileHandle
  SyslogTag : String
  Priority : Nat
  SendToStdout : Bool
  SendToSyslog : Bool
  SendToLogfile : Bool
  deriving DecidableEq

/-- One stack frame as seen through runtime.Caller and runtime.FuncForPC:
the qualified function name and the source line. -/
structure Frame where
  name : String
  line : Nat
  deriving DecidableEq

/-- Instrumentation counters for one facade call: how many times the prompt
was formatted with fmt.Sprintf, how many times runtime.Caller was consulted,
how many messages were inserted into the channel, and how many times
anyErrToString ran. -/
structure Effects where
  promptFormats : Nat
  callerLookups : Nat
  enqueues : Nat
  errStringifies : Nat
  deriving DecidableEq

/-- The all-zero effect record: nothing was formatted, resolved or enqueued. -/
def noEff : Effects := ⟨0, 0, 0, 0⟩

/-- Character class of the regexp bracket expression [0-z_]: the ASCII range
from the digit zero to lowercase z, which already contains the underscore. -/
def isA (c : Char) : Bool := decide ('0' ≤ c ∧ c ≤ 'z')

/-- Character class of the second capture group, which additionally allows
the two parenthesis characters. -/
def isB (c : Char) : Bool := isA c || decide (c = '(') || decide (c = ')')

/-- Attempt to match the regexp at the start of s, with the match required
to extend to the end of s as the anchor demands: an opening parenthesis and
a star, a nonempty first group over isA, a closing parenthesis and a dot,
and a nonempty second group over isB covering the entire remainder.  The
first group is forced to be the maximal isA run because the closing
parenthesis is outside isA. -/
def tryMatchAt (s : List Char) : Option (List Char × List Char) :=
  match s with
  | c1 :: c2 :: rest =>
    if c1 = '(' ∧ c2 = '*' then
      match rest.dropWhile isA with
      | c3 :: c4 :: m =>
        if c3 = ')' ∧ c4 = '.' ∧ rest.takeWhile isA ≠ [] ∧ m ≠ [] ∧ m.all isB then
          some (rest.takeWhile isA, m)
        else none
      | _ => none
    else none
  | _ => none

/-- Leftmost match of the end-anchored regexp in s, scanning start positions
from the left as FindStringSubmatch does. -/
def findMatch : List Char → Option (List Char × List Char)
  | [] => none
  | c :: cs =>
    match tryMatchAt (c :: cs) with
    | some r => some r
    | none => findMatch cs

/-- Effect of src/main.go lines 116-122 on a resolved function name: when
the regexp finds a match the name is replaced by the first capture, a dot,
and the last capture; otherwise it is returned unchanged. -/
def goNormalize (s : List Char) : List Char :=
  match findMatch s with
  | some tm => tm.1 ++ '.' :: tm.2
  | none => s

/-- String form of goNormalize. -/
def goNormalizeStr (s : String) : String := String.mk (goNormalize s.data)

/-- Embedding of the caller resolution in Log.Log (src/main.go lines
104-123): runtime.Caller is consulted with skip count two plus the supplied
extra depth; on failure the sentinel name is used with the zero-value line;
on success the resolved name is normalized by the regexp. -/
def resolveCaller (stack : List Frame) (stackTraceDepth : Nat) : String × Nat :=
  match stack[2 + stackTraceDepth]? with
  | none => ("<nf>", 0)
  | some f => (goNormalizeStr f.name, f.line)

/-- The line Log.Log renders (src/main.go line 125): a bar, the level
character, a bar, the caller name, parentheses, a colon, the line number, a
space, the message, and a newline. -/
def renderLine (stack : List Frame) (stackTraceDepth : Nat) (level : Char) (message : String) : String :=
  "|" ++ Char.toString level ++ "|" ++ (resolveCaller stack stackTraceDepth).1 ++ "():" ++
    toString (resolveCaller stack stackTraceDepth).2 ++ " " ++ message ++ "\n"

/-- Embedding of Log.anyErrToString (src/main.go lines 90-101).  The switch
takes the error arm for error values, the string arm for strings, and the
combined byte-or-int arm for those two types; that arm evaluates the checked
type assertion of the cause to byte, which yields the byte for a byte cause
but panics for an int cause (the dynamic type int is not byte), modelled
here as none.  Every other value takes the default arm, where both verbs
format the same value. -/
def Log.anyErrToString (_l : Log) (e : GoValue) (prompt : String) : Option String :=
  match e with
  | GoValue.errVal msg => some (prompt ++ " err\x7b" ++ msg ++ "\x7d")
  | GoValue.strVal s => some (prompt ++ " err\x7b" ++ s ++ "\x7d")
  | GoValue.byteVal b => some (prompt ++ " RC:" ++ pad2 b)
  | GoValue.intVal _ => none
  | GoValue.otherVal r => some (prompt ++ " ???\x7btype(" ++ r ++ ")=" ++ r ++ "\x7d")

/-- Embedding of the method named Log on the struct Log (src/main.go lines
103-128, called LogLine here because a Lean field named like its parent
shadows the type): resolve the caller, render the line, and send it on the
channel.  The effect counters record one caller lookup and one enqueue. -/
def Log.LogLine (l : Log) (stack : List Frame) (stackTraceDepth : Nat) (level : Char) (message : String) : Log × Effects :=
  ({ l with logChan := l.logChan ++ [renderLine stack stackTraceDepth level message] },
   ⟨0, 1, 1, 0⟩)

/-- Embedding of Log.ERR (src/main.go lines 130-139).  fmtF stands for
fmt.Sprintf on the prompt; v is none when the call passes no variadic
arguments, in which case the nil check skips the Sprintf.  The cause is
stringified by anyErrToString, whose panic on an int cause propagates as
none.  Below the threshold the call returns at once: the state and the
zero effect record come back unchanged. -/
def Log.ERR (l : Log) (fmtF : String → List GoValue → String) (stack : List Frame)
    (e : GoValue) (prompt : String) (v : Option (List GoValue)) : Option (Log × Effects) :=
  if l.Priority < LOG_ERR then some (l, noEff)
  else
    let pf := match v with
      | none => (prompt, 0)
      | some args => (fmtF prompt args, 1)
    match l.anyErrToString e pf.1 with
    | none => none
    | some msg =>
      let r := l.LogLine stack 0 'E' msg
      some (r.1, ⟨pf.2, r.2.callerLookups, r.2.enqueues, 1⟩)

/-- Embedding of Log.WRN (src/main.go lines 141-149). -/
def Log.WRN (l : Log) (fmtF : String → List GoValue → String) (stack : List Frame)
    (prompt : String) (v : Option (List GoValue)) : Log × Effects :=
  if l.Priority < LOG_WARNING then (l, noEff)
  else
    let pf := match v with
      | none => (prompt, 0)
      | some args => (fmtF prompt args, 1)
    let r := l.LogLine stack 0 'W' pf.1
    (r.1, ⟨pf.2, r.2.callerLookups, r.2.enqueues, 0⟩)

/-- Embedding of Log.INF (src/main.go lines 151-159). -/
def Log.INF (l : Log) (fmtF : String → List GoValue → String) (stack : List Frame)
    (prompt : String) (v : Option (List GoValue)) : Log × Effects :=
  if l.Priority < LOG_INFO then (l, noEff)
  else
    let pf := match v with
      | none => (prompt, 0)
      | some args => (fmtF prompt args, 1)
    let r := l.LogLine stack 0 'I' pf.1
    (r.1, ⟨pf.2, r.2.callerLookups, r.2.enqueues, 0⟩)

/-- Embedding of Log.DBG (src/main.go lines 161-169). -/
def Log.DBG (l : Log) (fmtF : String → List GoValue → String) (stack : List Frame)
    (prompt : String) (v : Option (List GoValue)) : Log × Effects :=
  if l.Priority < LOG_DEBUG then (l, noEff)
  else
    let pf := match v with
      | none => (prompt, 0)
      | some args => (fmtF prompt args, 1)
    let r := l.LogLine stack 0 'D' pf.1
    (r.1, ⟨pf.2, r.2.callerLookups, r.2.enqueues, 0⟩)

/-- Wall-clock reading, split into the fields the daemon consumes: the
time-of-day components of the timestamp layout and the calendar date. -/
structure Time where
  hh : Nat
  mm : Nat
  ss : Nat
  ffff : Nat
  year : Nat
  month : Nat
  day : Nat
  deriving DecidableEq

/-- Rendering of time.Now with the layout 15:04:05.0000 (src/main.go line
31): zero-padded hour, minute and second and a four-digit fraction. -/
def timestampStr (t : Time) : String :=
  pad2 t.hh ++ ":" ++ pad2 t.mm ++ ":" ++ pad2 t.ss ++ "." ++ pad4 t.ffff

/-- Rendering of time.Now with the layout 2006-01-02 (src/main.go line 81). -/
def dateStr (t : Time) : String :=
  pad4 t.year ++ "-" ++ pad2 t.month ++ "-" ++ pad2 t.day

/-- Value of os.O_WRONLY on Linux. -/
def O_WRONLY : Nat := 1

/-- Value of os.O_CREATE on Linux. -/
def O_CREATE : Nat := 64

/-- Value of os.O_APPEND on Linux. -/
def O_APPEND : Nat := 1024

/-- Outcomes of the external calls one daemon iteration can make: the clock
reading, the process base name from os.Args, the call stack visible to the
daemon goroutine, and for each fallible call either none for success or the
message of the error it returns. -/
structure Env where
  now : Time
  procBaseName : String
  stack : List Frame
  syslogNewErr : Option String
  syslogWriteErr : Option String
  fileOpenErr : Option String
  fileCloseErr : Option String
  fileWriteErr : Option String
  deriving DecidableEq

/-- The daemon reporting a Go error err through l.ERR(err, prompt): no
variadic arguments, so the prompt is not formatted, and the cause takes the
error arm of anyErrToString, which never panics, so the none branch below is
unreachable. -/
def Log.daemonReport (l : Log) (stack : List Frame) (emsg prompt : String) : Log :=
  match l.ERR (fun p _ => p) stack (GoValue.errVal emsg) prompt none with
  | some r => r.1
  | none => l

/-- The open half of Log.newFile (src/main.go lines 81-87): build the file
name from the process base name and the current date, open it with
O_APPEND, O_CREATE and O_WRONLY at permission 0600; on failure report
through ERR and return leaving fileWriter unchanged. -/
def Log.newFileOpen (l : Log) (env : Env) : Log :=
  match env.fileOpenErr with
  | some e => l.daemonReport env.stack e "Error creating logfile"
  | none =>
    { l with fileWriter := some ⟨env.procBaseName ++ "_" ++ dateStr env.now ++ ".log",
        O_APPEND ||| O_CREATE ||| O_WRONLY, 0o600, false⟩ }

/-- Embedding of Log.newFile (src/main.go lines 72-88): when a file handle
is present it is closed first; a close failure is reported through ERR and
newFile returns at once, leaving fileWriter still holding the old handle.
On a successful close the stored handle is marked closed (the Go field
still points at the closed file until a successful open replaces it), and
then the open half runs. -/
def Log.newFile (l : Log) (env : Env) : Log :=
  match l.fileWriter with
  | some h =>
    match env.fileCloseErr with
    | some e => l.daemonReport env.stack e "Error closing logfile"
    | none => Log.newFileOpen { l with fileWriter := some { h with closed := true } } env
  | none => l.newFileOpen env

/-- The syslog sink of one daemon iteration (src/main.go lines 37-51),
reached only when SendToSyslog is set: lazily create the writer at the
informational facility with the configured tag, then write the raw message.
A creation or write failure is reported through ERR and the result is the
left injection, on which the daemon loop returns; success is the right
injection carrying the state and the line handed to the syslog transport. -/
def Log.syslogPhase (l : Log) (env : Env) (message : String) : Log ⊕ (Log × List String) :=
  match l.syslogWriter with
  | none =>
    match env.syslogNewErr with
    | some e => Sum.inl (l.daemonReport env.stack e "Error creating syslog")
    | none =>
      let l2 : Log := { l with syslogWriter := some ⟨LOG_INFO, l.SyslogTag⟩ }
      match env.syslogWriteErr with
      | some e => Sum.inl (l2.daemonReport env.stack e "Error writing to syslog")
      | none => Sum.inr (l2, [message])
  | some _ =>
    match env.syslogWriteErr with
    | some e => Sum.inl (l.daemonReport env.stack e "Error writing to syslog")
    | none => Sum.inr (l, [message])

/-- The file sink of one daemon iteration (src/main.go lines 53-68), reached
only when SendToLogfile is set: open a file if none is open yet, rotate when
the day-of-month read from the clock differs from oldDate, then write the
timestamped line.  Writing through a nil handle (possible when the open
failed) yields the invalid-argument error of a nil os.File receiver, and
writing through a closed handle (possible when a rotation closed the old
file but could not open a new one) yields the already-closed error; a write
error of the open handle comes from the environment.  The result carries
the state, the updated oldDate, the writes that reached a file handle, and
whether the loop returns. -/
def Log.filePhase (l : Log) (env : Env) (oldDate : Nat) (mt : String) :
    Log × Nat × List (FileHandle × String) × Bool :=
  let l1 : Log :=
    match l.fileWriter with
    | none => l.newFile env
    | some _ => l
  let p2 : Log × Nat :=
    if env.now.day ≠ oldDate then (l1.newFile env, env.now.day) else (l1, oldDate)
  match p2.1.fileWriter with
  | none => (p2.1.daemonReport env.stack "invalid argument" "Error writing to logfile", p2.2, [], true)
  | some h =>
    if h.closed then
      (p2.1.daemonReport env.stack "file already closed" "Error writing to logfile", p2.2, [], true)
    else
      match env.fileWriteErr with
      | some e => (p2.1.daemonReport env.stack e "Error writing to logfile", p2.2, [], true)
      | none => (p2.1, p2.2, [(h, mt)], false)

/-- Observable result of one iteration of the daemon loop: the logger state,
the daemon-local oldDate, the lines written to each sink during the
iteration, and whether the loop returned (stopping the worker for good). -/
structure StepResult where
  state : Log
  oldDate : Nat
  consoleOut : List String
  syslogOut : List String
  fileOut : List (FileHandle × String)
  stopped : Bool
  deriving DecidableEq

/-- One iteration of Log.daemon (src/main.go lines 29-69): receive the
oldest message (none when the queue is empty and the worker parks), prefix
the timestamp, print to stdout when enabled (fmt.Print's result is
discarded, so the console can never end the loop), then run the syslog sink
and the file sink in that order, each able to return from the loop. -/
def Log.daemonStep (l0 : Log) (env : Env) (oldDate : Nat) : Option StepResult :=
  match l0.logChan with
  | [] => none
  | message :: rest =>
    let l1 : Log := { l0 with logChan := rest }
    let mt := timestampStr env.now ++ message
    let cOut := if l1.SendToStdout then [mt] else []
    let afterSyslog : Log ⊕ (Log × List String) :=
      if l1.SendToSyslog then l1.syslogPhase env message else Sum.inr (l1, [])
    match afterSyslog with
    | Sum.inl ls => some ⟨ls, oldDate, cOut, [], [], true⟩
    | Sum.inr (l2, sOut) =>
      if l2.SendToLogfile then
        let fp := l2.filePhase env oldDate mt
        some ⟨fp.1, fp.2.1, cOut, sOut, fp.2.2.1, fp.2.2.2⟩
      else
        some ⟨l2, oldDate, cOut, sOut, [], false⟩

/-- Accumulated result of running the daemon loop over a finite trace of
environments, one per iteration. -/
structure RunResult where
  state : Log
  oldDate : Nat
  consoleOut : List String
  syslogOut : List String
  fileOut : List (FileHandle × String)
  stopped : Bool
  deriving DecidableEq

/-- The daemon loop over a finite trace of per-iteration environments:
each iteration consumes one environment; once an iteration returns (stopped)
no later environment is consumed and no later message is processed, exactly
as the return statements leave the for loop for good. -/
def Log.daemonRun (l : Log) (envs : List Env) (oldDate : Nat) : RunResult :=
  match envs with
  | [] => ⟨l, oldDate, [], [], [], false⟩
  | env :: rest =>
    match l.daemonStep env oldDate with
    | none => ⟨l, oldDate, [], [], [], false⟩
    | some r =>
      if r.stopped then ⟨r.state, r.oldDate, r.consoleOut, r.syslogOut, r.fileOut, true⟩
      else
        let rr := r.state.daemonRun rest r.oldDate
        ⟨rr.state, rr.oldDate, r.consoleOut ++ rr.consoleOut, r.syslogOut ++ rr.syslogOut,
          r.fileOut ++ rr.fileOut, rr.stopped⟩

/-- Sleep interval of Log.Close in milliseconds: time.Sleep of 100
milliseconds per polling iteration. -/
def closeSleepIntervalMs : Nat := 100

/-- Embedding of Log.Close (src/main.go lines 171-177).  obs is the sequence
of values that successive reads of the queue length return; the result is
the number of sleep iterations performed before a read returns zero (none
when no read in the trace does, as the poll then continues).  Close only
reads the length and sleeps: it never dequeues a message or mutates any
field of the logger, so it takes and returns no state. -/
def Log.Close (obs : List Nat) : Option Nat :=
  match obs with
  | [] => none
  | n :: rest => if n > 0 then Option.map (fun k => k + 1) (Log.Close rest) else some 0

/-- The singleton L as the package init function constructs it (src/main.go
lines 181-192): an empty queue of capacity 1000, stdout enabled, syslog and
logfile disabled, Priority LOG_DEBUG, tag GOLOGGER. -/
def initL : Log :=
  { logChan := [], logChanCap := 1000, syslogWriter := none, fileWriter := none,
    SyslogTag := "GOLOGGER", Priority := LOG_DEBUG,
    SendToStdout := true, SendToSyslog := false, SendToLogfile := false }

/-- Last statement of init: the statement go L.daemon() launches the worker
before init returns, so the daemon is started during initialization. -/
def initDaemonStarted : Bool := true

lemma takeWhile_isA_append (t l : List Char) (ht : ∀ c ∈ t, isA c = true) :
    (t ++ ')' :: l).takeWhile isA = t := by
  have hrp : isA ')' = false := by decide
  induction t with
  | nil => simp [List.takeWhile_cons, hrp]
  | cons a s ih =>
    have ha : isA a = true := ht a (List.mem_cons_self a s)
    simp [List.takeWhile_cons, ha, ih (fun c hc => ht c (List.mem_cons_of_mem a hc))]

lemma dropWhile_isA_append (t l : List Char) (ht : ∀ c ∈ t, isA c = true) :
    (t ++ ')' :: l).dropWhile isA = ')' :: l := by
  have hrp : isA ')' = false := by decide
  induction t with
  | nil => simp [List.dropWhile_cons, hrp]
  | cons a s ih =>
    have ha : isA a = true := ht a (List.mem_cons_self a s)
    simp [List.dropWhile_cons, ha, ih (fun c hc => ht c (List.mem_cons_of_mem a hc))]

lemma tryMatchAt_method (t m : List Char) (ht : t ≠ []) (hta : ∀ c ∈ t, isA c = true)
    (hm : m ≠ []) (hmb : ∀ c ∈ m, isB c = true) :
    tryMatchAt ('(' :: '*' :: (t ++ ')' :: '.' :: m)) = some (t, m) := by
  have h1 : (t ++ ')' :: '.' :: m).takeWhile isA = t := takeWhile_isA_append t ('.' :: m) hta
  have h2 : (t ++ ')' :: '.' :: m).dropWhile isA = ')' :: '.' :: m :=
    dropWhile_isA_append t ('.' :: m) hta
  simp [tryMatchAt, h1, h2, ht, hm, List.all_eq_true.mpr hmb]

lemma tryMatchAt_not_lparen (c : Char) (cs : List Char) (hc : ¬ c = '(') :
    tryMatchAt (c :: cs) = none := by
  cases cs with
  | nil => rfl
  | cons b l => simp [tryMatchAt, hc]

lemma findMatch_cons_of_none (c : Char) (cs : List Char) (h : tryMatchAt (c :: cs) = none) :
    findMatch (c :: cs) = findMatch cs := by
  simp [findMatch, h]

lemma findMatch_no_lparen (s : List Char) (h : ∀ c ∈ s, ¬ c = '(') : findMatch s = none := by
  induction s with
  | nil => rfl
  | cons a t ih =>
    rw [findMatch_cons_of_none a t (tryMatchAt_not_lparen a t (h a (List.mem_cons_self a t)))]
    exact ih (fun c hc => h c (List.mem_cons_of_mem a hc))

lemma findMatch_append_no_lparen (pre s : List Char) (h : ∀ c ∈ pre, ¬ c = '(') :
    findMatch (pre ++ s) = findMatch s := by
  induction pre with
  | nil => simp
  | cons a u ih =>
    rw [List.cons_append,
      findMatch_cons_of_none a (u ++ s) (tryMatchAt_not_lparen a (u ++ s) (h a (List.mem_cons_self a u)))]
    exact ih (fun c hc => h c (List.mem_cons_of_mem a hc))

lemma goNormalize_method_suffix (pre t m : List Char) (hpre : ∀ c ∈ pre, ¬ c = '(')
    (ht : t ≠ []) (hta : ∀ c ∈ t, isA c = true) (hm : m ≠ []) (hmb : ∀ c ∈ m, isB c = true) :
    goNormalize (pre ++ '(' :: '*' :: (t ++ ')' :: '.' :: m)) = t ++ '.' :: m := by
  have hf : findMatch (pre ++ '(' :: '*' :: (t ++ ')' :: '.' :: m)) = some (t, m) := by
    rw [findMatch_append_no_lparen pre _ hpre]
    simp [findMatch, tryMatchAt_method t m ht hta hm hmb]
  simp [goNormalize, hf]

lemma goNormalize_no_lparen (s : List Char) (h : ∀ c ∈ s, ¬ c = '(') : goNormalize s = s := by
  simp [goNormalize, findMatch_no_lparen s h]

/-- C10: when the resolved caller is a pointer-receiver method such as
pkg.(*Type).Method, the reported caller name is Type.Method with the
package qualifier stripped (the regexp match is replaced by its two
captures only), whereas a plain function name containing no parenthesis,
such as pkg.Func, passes through with its package qualifier intact — so
the qualification of the reported name differs between methods and plain
functions. -/
theorem c10_method_names_drop_package (pkg t m f : List Char)
    (hpkg : ∀ c ∈ pkg, ¬ c = '(') (ht : t ≠ []) (hta : ∀ c ∈ t, isA c = true)
    (hm : m ≠ []) (hmb : ∀ c ∈ m, isB c = true) (hf : ∀ c ∈ f, ¬ c = '(') :
    goNormalize (pkg ++ '.' :: '(' :: '*' :: (t ++ ')' :: '.' :: m)) = t ++ '.' :: m
  ∧ goNormalize (pkg ++ '.' :: f) = pkg ++ '.' :: f := by
  constructor
  · have hsplit : pkg ++ '.' :: '(' :: '*' :: (t ++ ')' :: '.' :: m)
        = (pkg ++ ['.']) ++ '(' :: '*' :: (t ++ ')' :: '.' :: m) := by simp
    rw [hsplit]
    refine goNormalize_method_suffix (pkg ++ ['.']) t m ?_ ht hta hm hmb
    intro c hc
    rcases List.mem_append.mp hc with h1 | h1
    · exact hpkg c h1
    · simp only [List.mem_singleton] at h1
      subst h1
      decide
  · refine goNormalize_no_lparen _ ?_
    intro c hc
    rcases List.mem_append.mp hc with h1 | h1
    · exact hpkg c h1
    · rcases List.mem_cons.mp h1 with h2 | h2
      · subst h2
        decide
      · exact hf c h2

theorem c10_witness :
    goNormalize (['m', 'a', 'i', 'n'] ++ '.' :: '(' :: '*' ::
        (['T', 'e', 's', 't'] ++ ')' :: '.' :: ['r', 'u', 'n']))
      = ['T', 'e', 's', 't'] ++ '.' :: ['r', 'u', 'n']
  ∧ goNormalize (['m', 'a', 'i', 'n'] ++ '.' :: ['r', 'u', 'n'])
      = ['m', 'a', 'i', 'n'] ++ '.' :: ['r', 'u', 'n'] :=
  c10_method_names_drop_package ['m', 'a', 'i', 'n'] ['T', 'e', 's', 't'] ['r', 'u', 'n']
    ['r', 'u', 'n'] (by decide) (by decide) (by decide) (by decide) (by decide) (by decide)

/-- C7: for every call passing the severity filter, caller resolution
consults the stack at skip count two plus the caller-supplied extra depth;
when the walk fails the reported name is the sentinel and the line is the
zero value; when the resolved name ends in a method-style suffix of the
form star-Type dot Method it is normalized to Type.Method by the pattern
match; names containing no parenthesis pass through unchanged. -/
theorem c7_caller_resolution (stack : List Frame) (d : Nat) :
    (stack[2 + d]? = none → resolveCaller stack d = ("<nf>", 0))
  ∧ (∀ f : Frame, stack[2 + d]? = some f →
      resolveCaller stack d = (goNormalizeStr f.name, f.line))
  ∧ (∀ (f : Frame) (pre t m : List Char), stack[2 + d]? = some f →
      f.name.data = pre ++ '(' :: '*' :: (t ++ ')' :: '.' :: m) →
      (∀ c ∈ pre, ¬ c = '(') → t ≠ [] → (∀ c ∈ t, isA c = true) →
      m ≠ [] → (∀ c ∈ m, isB c = true) →
      (resolveCaller stack d).1.data = t ++ '.' :: m)
  ∧ (∀ f : Frame, stack[2 + d]? = some f → (∀ c ∈ f.name.data, ¬ c = '(') →
      resolveCaller stack d = (f.name, f.line)) := by
  refine ⟨fun h => ?_, fun f h => ?_,
    fun f pre t m h hdata hpre ht hta hm hmb => ?_, fun f h hnp => ?_⟩
  · simp [resolveCaller, h]
  · simp [resolveCaller, h]
  · have h2 : resolveCaller stack d = (goNormalizeStr f.name, f.line) := by
      simp [resolveCaller, h]
    rw [h2]
    show goNormalize f.name.data = t ++ '.' :: m
    rw [hdata]
    exact goNormalize_method_suffix pre t m hpre ht hta hm hmb
  · have h2 : resolveCaller stack d = (goNormalizeStr f.name, f.line) := by
      simp [resolveCaller, h]
    rw [h2]
    have h3 : goNormalize f.name.data = f.name.data := goNormalize_no_lparen _ hnp
    show (String.mk (goNormalize f.name.data), f.line) = (f.name, f.line)
    rw [h3]

theorem c7_witness :
    resolveCaller [⟨"gologger.daemon", 30⟩, ⟨"gologger.wrap", 138⟩,
      ⟨"main.(*Server).run", 42⟩] 0 = ("Server.run", 42) := by
  have h := (c7_caller_resolution [⟨"gologger.daemon", 30⟩, ⟨"gologger.wrap", 138⟩,
    ⟨"main.(*Server).run", 42⟩] 0).2.1 ⟨"main.(*Server).run", 42⟩ rfl
  rw [h]
  decide

/-- C1: every call to ERR, WRN, INF or DBG whose severity is below the
configured threshold (Priority below LOG_ERR, LOG_WARNING, LOG_INFO or
LOG_DEBUG respectively) returns at once with zero side effects: the prompt
is never formatted, the caller stack is never consulted, nothing is
inserted into the queue, and the logger state comes back unchanged. -/
theorem c1_below_threshold_noop (l : Log) (fmtF : String → List GoValue → String)
    (stack : List Frame) (e : GoValue) (prompt : String) (v : Option (List GoValue)) :
    (l.Priority < LOG_ERR → l.ERR fmtF stack e prompt v = some (l, noEff))
  ∧ (l.Priority < LOG_WARNING → l.WRN fmtF stack prompt v = (l, noEff))
  ∧ (l.Priority < LOG_INFO → l.INF fmtF stack prompt v = (l, noEff))
  ∧ (l.Priority < LOG_DEBUG → l.DBG fmtF stack prompt v = (l, noEff)) := by
  refine ⟨fun h => ?_, fun h => ?_, fun h => ?_, fun h => ?_⟩
  · simp [Log.ERR, h]
  · simp [Log.WRN, h]
  · simp [Log.INF, h]
  · simp [Log.DBG, h]

theorem c1_witness :
    ({ initL with Priority := 0 } : Log).ERR (fun p _ => p) [] (GoValue.intVal 7) "x"
        none = some ({ initL with Priority := 0 }, noEff)
  ∧ ({ initL with Priority := 0 } : Log).WRN (fun p _ => p) [] "x" none
      = ({ initL with Priority := 0 }, noEff)
  ∧ ({ initL with Priority := 0 } : Log).INF (fun p _ => p) [] "x" none
      = ({ initL with Priority := 0 }, noEff)
  ∧ ({ initL with Priority := 0 } : Log).DBG (fun p _ => p) [] "x" none
      = ({ initL with Priority := 0 }, noEff) :=
  ⟨(c1_below_threshold_noop { initL with Priority := 0 } (fun p _ => p) [] (GoValue.intVal 7)
      "x" none).1 (by decide),
   (c1_below_threshold_noop { initL with Priority := 0 } (fun p _ => p) [] (GoValue.intVal 7)
      "x" none).2.1 (by decide),
   (c1_below_threshold_noop { initL with Priority := 0 } (fun p _ => p) [] (GoValue.intVal 7)
      "x" none).2.2.1 (by decide),
   (c1_below_threshold_noop { initL with Priority := 0 } (fun p _ => p) [] (GoValue.intVal 7)
      "x" none).2.2.2 (by decide)⟩

/-- C3: the error-path stringification at the failing input together with
the behaviour of the remaining arms.  The claim says a byte or int cause
yields prompt RC:NN; the code handles the byte case that way, but for an
int cause the combined byte-or-int switch arm evaluates the checked type
assertion of the cause to byte, which panics because the dynamic type int
is not byte — modelled as none in the first conjunct.  Error causes and
string causes wrap the text in err braces, any other value is reported
with its formatted value twice, and the stringifier is invoked only on the
ERR path: WRN, INF and DBG record zero stringifier runs in every case. -/
theorem c3_anyErrToString_spec :
    initL.anyErrToString (GoValue.intVal 5) "read failed" = none
  ∧ initL.anyErrToString (GoValue.errVal "eof") "read failed"
      = some "read failed err\x7beof\x7d"
  ∧ initL.anyErrToString (GoValue.strVal "bad") "p" = some "p err\x7bbad\x7d"
  ∧ initL.anyErrToString (GoValue.byteVal 7) "p" = some "p RC:07"
  ∧ initL.anyErrToString (GoValue.byteVal 123) "p" = some "p RC:123"
  ∧ initL.anyErrToString (GoValue.otherVal "1.5") "p" = some "p ???\x7btype(1.5)=1.5\x7d"
  ∧ (∀ (l : Log) (fmtF : String → List GoValue → String) (stack : List Frame)
      (prompt : String) (v : Option (List GoValue)),
        (l.WRN fmtF stack prompt v).2.errStringifies = 0
      ∧ (l.INF fmtF stack prompt v).2.errStringifies = 0
      ∧ (l.DBG fmtF stack prompt v).2.errStringifies = 0) := by
  refine ⟨by decide, by decide, by decide, by decide, by decide, by decide, ?_⟩
  intro l fmtF stack prompt v
  refine ⟨?_, ?_, ?_⟩
  · simp only [Log.WRN]
    split <;> rfl
  · simp only [Log.INF]
    split <;> rfl
  · simp only [Log.DBG]
    split <;> rfl

/-- C8: the singleton is initialized with queue capacity exactly 1000 (and
empty), console enabled, syslog and file disabled, threshold LOG_DEBUG —
the most verbose level, strictly above every other level constant — syslog
tag GOLOGGER, and the dispatch worker started during initialization. -/
theorem c8_init_configuration :
    initL.logChanCap = 1000 ∧ initL.logChan = []
  ∧ initL.SendToStdout = true ∧ initL.SendToSyslog = false ∧ initL.SendToLogfile = false
  ∧ initL.Priority = LOG_DEBUG
  ∧ LOG_ERR < LOG_DEBUG ∧ LOG_WARNING < LOG_DEBUG ∧ LOG_INFO < LOG_DEBUG
  ∧ initL.SyslogTag = "GOLOGGER"
  ∧ initDaemonStarted = true := by decide

/-- C9: draining when the queue is already observed empty returns with zero
sleep iterations and, since Close only reads the queue length, no state
change; when the first read is positive the loop sleeps one fixed interval
of 100 milliseconds and re-checks, repeating until a read observes zero. -/
theorem c9_close_drain (n : Nat) (rest : List Nat) :
    Log.Close (0 :: rest) = some 0
  ∧ (0 < n → Log.Close (n :: rest) = Option.map (fun k => k + 1) (Log.Close rest))
  ∧ closeSleepIntervalMs = 100 := by
  refine ⟨?_, fun h => ?_, rfl⟩
  · simp [Log.Close]
  · simp [Log.Close, h]

theorem c9_witness :
    Log.Close [0] = some 0
  ∧ Log.Close [2, 0] = some 1 := by
  refine ⟨(c9_close_drain 1 []).1, ?_⟩
  have h := (c9_close_drain 2 [0]).2.1 (by decide)
  rw [h]
  rfl

/-- C2: fatal-stop behaviour of the dispatch worker, for a threshold that
admits error reports.  First conjunct: a syslog writer creation failure is
reported once through the logger's own ERR path (exactly one line joins
the queue) and the iteration stops, skipping the file sink entirely even
when it is enabled.  Second conjunct: the same for a syslog write failure.
Third conjunct: the same for a logfile write failure.  Fourth conjunct:
with syslog and file sinks disabled the iteration never stops, whatever
the console flag — the console write has no error path at all.  Fifth
conjunct: once an iteration stops, the loop consumes no further
environment and processes no further queued message. -/
theorem c2_fatal_stop
    (cap d : Nat) (sw : Option SyslogHandle) (w : SyslogHandle) (fw : Option FileHandle)
    (nm : String) (fl pm : Nat) (tag : String) (pr : Nat) (std stlf : Bool)
    (t : Time) (base : String) (stack : List Frame)
    (sne swr foe fce fwe : Option String) (e msg : String) (rest : List String)
    (envs : List Env) (hpr : LOG_ERR ≤ pr) :
    Log.daemonStep ⟨msg :: rest, cap, none, fw, tag, pr, std, true, stlf⟩
        ⟨t, base, stack, some e, swr, foe, fce, fwe⟩ d
      = some ⟨⟨rest ++ [renderLine stack 0 'E' ("Error creating syslog" ++ " err\x7b" ++ e ++ "\x7d")],
          cap, none, fw, tag, pr, std, true, stlf⟩, d,
          (if std then [timestampStr t ++ msg] else []), [], [], true⟩
  ∧ Log.daemonStep ⟨msg :: rest, cap, some w, fw, tag, pr, std, true, stlf⟩
        ⟨t, base, stack, sne, some e, foe, fce, fwe⟩ d
      = some ⟨⟨rest ++ [renderLine stack 0 'E' ("Error writing to syslog" ++ " err\x7b" ++ e ++ "\x7d")],
          cap, some w, fw, tag, pr, std, true, stlf⟩, d,
          (if std then [timestampStr t ++ msg] else []), [], [], true⟩
  ∧ Log.daemonStep ⟨msg :: rest, cap, sw, some ⟨nm, fl, pm, false⟩, tag, pr, std, false, true⟩
        ⟨t, base, stack, sne, swr, foe, fce, some e⟩ t.day
      = some ⟨⟨rest ++ [renderLine stack 0 'E' ("Error writing to logfile" ++ " err\x7b" ++ e ++ "\x7d")],
          cap, sw, some ⟨nm, fl, pm, false⟩, tag, pr, std, false, true⟩, t.day,
          (if std then [timestampStr t ++ msg] else []), [], [], true⟩
  ∧ Log.daemonStep ⟨msg :: rest, cap, sw, fw, tag, pr, std, false, false⟩
        ⟨t, base, stack, sne, swr, foe, fce, fwe⟩ d
      = some ⟨⟨rest, cap, sw, fw, tag, pr, std, false, false⟩, d,
          (if std then [timestampStr t ++ msg] else []), [], [], false⟩
  ∧ (∀ (l : Log) (env : Env) (d0 : Nat) (r : StepResult),
      l.daemonStep env d0 = some r → r.stopped = true →
      l.daemonRun (env :: envs) d0 = ⟨r.state, r.oldDate, r.consoleOut, r.syslogOut, r.fileOut, true⟩) := by
  have hnl : ¬ pr < LOG_ERR := Nat.not_lt.mpr hpr
  refine ⟨?_, ?_, ?_, ?_, ?_⟩
  · simp [Log.daemonStep, Log.syslogPhase, Log.daemonReport, Log.ERR, Log.anyErrToString,
      Log.LogLine, hnl]
  · simp [Log.daemonStep, Log.syslogPhase, Log.daemonReport, Log.ERR, Log.anyErrToString,
      Log.LogLine, hnl]
  · simp [Log.daemonStep, Log.filePhase, Log.daemonReport, Log.ERR, Log.anyErrToString,
      Log.LogLine, hnl]
  · simp [Log.daemonStep]
  · intro l env d0 r h1 h2
    simp [Log.daemonRun, h1, h2]

theorem c2_witness :
    Log.daemonStep ⟨["m\n"], 1000, none, none, "GOLOGGER", 7, true, true, false⟩
        ⟨⟨1, 2, 3, 4, 2024, 1, 5⟩, "app", [], some "boom", none, none, none, none⟩ 5
      = some ⟨⟨["|E|<nf>():0 Error creating syslog err\x7bboom\x7d\n"],
          1000, none, none, "GOLOGGER", 7, true, true, false⟩, 5,
          ["01:02:03.0004m\n"], [], [], true⟩ := by
  have h := (c2_fatal_stop 1000 5 none ⟨6, "x"⟩ none "" 0 0 "GOLOGGER" 7 true false
    ⟨1, 2, 3, 4, 2024, 1, 5⟩ "app" [] none none none none none "boom" "m\n" [] []
    (by decide)).1
  rw [h]
  decide

/-- C4: on an iteration in which every enabled sink succeeds, the console
and the file sink each receive exactly the dequeued line with the
wall-clock timestamp prefixed, while the syslog sink receives the same
line without the timestamp; the timestamp layout is
zero-padded hour, colon, minute, colon, second, dot, four fractional
digits, and the queued line layout is bar, level character, bar, caller
name, parentheses, colon, line number, space, message, newline. -/
theorem c4_sink_payloads (cap : Nat) (w : SyslogHandle) (nm : String) (fl pm : Nat)
    (tag : String) (pr : Nat) (t : Time) (base : String) (stack : List Frame)
    (sne foe fce : Option String) (msg : String) (rest : List String)
    (level : Char) (m : String) :
    Log.daemonStep ⟨msg :: rest, cap, some w, some ⟨nm, fl, pm, false⟩, tag, pr, true, true, true⟩
        ⟨t, base, stack, sne, none, foe, fce, none⟩ t.day
      = some ⟨⟨rest, cap, some w, some ⟨nm, fl, pm, false⟩, tag, pr, true, true, true⟩, t.day,
          [timestampStr t ++ msg], [msg],
          [(⟨nm, fl, pm, false⟩, timestampStr t ++ msg)], false⟩
  ∧ timestampStr t = pad2 t.hh ++ ":" ++ pad2 t.mm ++ ":" ++ pad2 t.ss ++ "." ++ pad4 t.ffff
  ∧ renderLine stack 0 level m
      = "|" ++ Char.toString level ++ "|" ++ (resolveCaller stack 0).1 ++ "():" ++
        toString (resolveCaller stack 0).2 ++ " " ++ m ++ "\n" := by
  refine ⟨?_, rfl, rfl⟩
  simp [Log.daemonStep, Log.syslogPhase, Log.filePhase]

/-- C5 counterexample: the claim says rotation happens whenever the current
calendar date differs from the date recorded when the file was opened.
Here the open file is the one created for 2024-01-05 (its name records the
date) and the clock now reads 2024-02-05 — a different calendar date — yet
the iteration closes nothing and opens nothing: the very same handle is
written and kept, because the code compares only the day-of-month
component (5 = 5) against the daemon-local oldDate. -/
theorem c5_counterexample :
    Log.daemonStep ⟨["m\n"], 1000, none, some ⟨"app_2024-01-05.log", 1089, 384, false⟩,
        "GOLOGGER", 7, false, false, true⟩
      ⟨⟨0, 0, 0, 0, 2024, 2, 5⟩, "app", [], none, none, none, none, none⟩ 5
    = some ⟨⟨[], 1000, none, some ⟨"app_2024-01-05.log", 1089, 384, false⟩,
        "GOLOGGER", 7, false, false, true⟩, 5, [], [],
        [(⟨"app_2024-01-05.log", 1089, 384, false⟩, "00:00:00.0000m\n")], false⟩ := by
  decide

/-- C5 as amended: on every file-sink write attempt, if no file is open, a
file named from the process base name and the current date is opened with
O_APPEND, O_CREATE and O_WRONLY at permission 0600 (first conjunct); if a
file is open and the day-of-month read from the clock equals the recorded
day, nothing is rotated (second conjunct); if the day-of-month differs
from the recorded day — which is set at worker start and updated only on
rotation, and is the only component compared — the current file is closed,
a new file named for the current date is opened the same way, and the
recorded day is updated (third conjunct).  The check runs lazily inside
the processing of each message, with no timer. -/
theorem c5_rotation_by_day_of_month (cap : Nat) (sw : Option SyslogHandle)
    (nm : String) (fl pm : Nat) (tag : String) (pr : Nat) (std : Bool)
    (t : Time) (base : String) (stack : List Frame) (sne swr : Option String)
    (msg : String) (rest : List String) (d : Nat) (hd : t.day ≠ d) :
    Log.daemonStep ⟨msg :: rest, cap, sw, none, tag, pr, std, false, true⟩
        ⟨t, base, stack, sne, swr, none, none, none⟩ t.day
      = some ⟨⟨rest, cap, sw,
          some ⟨base ++ "_" ++ dateStr t ++ ".log", O_APPEND ||| O_CREATE ||| O_WRONLY, 0o600, false⟩,
          tag, pr, std, false, true⟩, t.day,
          (if std then [timestampStr t ++ msg] else []), [],
          [(⟨base ++ "_" ++ dateStr t ++ ".log", O_APPEND ||| O_CREATE ||| O_WRONLY, 0o600, false⟩,
            timestampStr t ++ msg)], false⟩
  ∧ Log.daemonStep ⟨msg :: rest, cap, sw, some ⟨nm, fl, pm, false⟩, tag, pr, std, false, true⟩
        ⟨t, base, stack, sne, swr, none, none, none⟩ t.day
      = some ⟨⟨rest, cap, sw, some ⟨nm, fl, pm, false⟩, tag, pr, std, false, true⟩, t.day,
          (if std then [timestampStr t ++ msg] else []), [],
          [(⟨nm, fl, pm, false⟩, timestampStr t ++ msg)], false⟩
  ∧ Log.daemonStep ⟨msg :: rest, cap, sw, some ⟨nm, fl, pm, false⟩, tag, pr, std, false, true⟩
        ⟨t, base, stack, sne, swr, none, none, none⟩ d
      = some ⟨⟨rest, cap, sw,
          some ⟨base ++ "_" ++ dateStr t ++ ".log", O_APPEND ||| O_CREATE ||| O_WRONLY, 0o600, false⟩,
          tag, pr, std, false, true⟩, t.day,
          (if std then [timestampStr t ++ msg] else []), [],
          [(⟨base ++ "_" ++ dateStr t ++ ".log", O_APPEND ||| O_CREATE ||| O_WRONLY, 0o600, false⟩,
            timestampStr t ++ msg)], false⟩ := by
  refine ⟨?_, ?_, ?_⟩
  · simp [Log.daemonStep, Log.filePhase, Log.newFile, Log.newFileOpen]
  · simp [Log.daemonStep, Log.filePhase]
  · simp [Log.daemonStep, Log.filePhase, Log.newFile, Log.newFileOpen, hd]

theorem c5_witness :
    Log.daemonStep ⟨["m\n"], 1000, none, some ⟨"app_2024-01-05.log", 1089, 384, false⟩,
        "GOLOGGER", 7, false, false, true⟩
      ⟨⟨0, 0, 0, 0, 2024, 1, 6⟩, "app", [], none, none, none, none, none⟩ 5
    = some ⟨⟨[], 1000, none, some ⟨"app_2024-01-06.log", 1089, 384, false⟩,
        "GOLOGGER", 7, false, false, true⟩, 6, [], [],
        [(⟨"app_2024-01-06.log", 1089, 384, false⟩, "00:00:00.0000m\n")], false⟩ := by
  have h := (c5_rotation_by_day_of_month 1000 none "app_2024-01-05.log" 1089 384
    "GOLOGGER" 7 false ⟨0, 0, 0, 0, 2024, 1, 6⟩ "app" [] none none "m\n" [] 5
    (by decide)).2.2
  rw [h]
  decide

/-- C6 counterexample: the claim says a close failure during rotation stops
the worker permanently, like a syslog failure.  Here the close of the
2024-01-05 file fails (the environment returns an error for it) during the
rotation triggered on 2024-01-06, the error is reported through ERR, yet
stopped is false: the worker goes on, writes the message through the old
still-open handle, and will process further messages. -/
theorem c6_counterexample :
    Log.daemonStep ⟨["m\n"], 1000, none, some ⟨"app_2024-01-05.log", 1089, 384, false⟩,
        "GOLOGGER", 7, false, false, true⟩
      ⟨⟨0, 0, 0, 0, 2024, 1, 6⟩, "app", [], none, none, none, some "boom", none⟩ 5
    = some ⟨⟨["|E|<nf>():0 Error closing logfile err\x7bboom\x7d\n"], 1000, none,
        some ⟨"app_2024-01-05.log", 1089, 384, false⟩, "GOLOGGER", 7, false, false, true⟩, 6,
        [], [], [(⟨"app_2024-01-05.log", 1089, 384, false⟩, "00:00:00.0000m\n")], false⟩ := by
  decide

/-- C6 as amended: a failure while closing the current log file during
rotation is reported through the logger's own ERR path, but it does not
have the fatal-stop behaviour of a syslog failure: newFile returns early
leaving the old handle in place, the daemon still updates its recorded
day, and the iteration goes on to write the timestamped line through the
old handle; the worker stops only if that write itself fails. -/
theorem c6_close_failure_not_fatal (cap : Nat) (sw : Option SyslogHandle)
    (nm : String) (fl pm : Nat) (tag : String) (pr : Nat) (std : Bool)
    (t : Time) (base : String) (stack : List Frame) (sne swr foe : Option String)
    (e msg : String) (rest : List String) (d : Nat)
    (hpr : LOG_ERR ≤ pr) (hd : t.day ≠ d) :
    Log.daemonStep ⟨msg :: rest, cap, sw, some ⟨nm, fl, pm, false⟩, tag, pr, std, false, true⟩
        ⟨t, base, stack, sne, swr, foe, some e, none⟩ d
      = some ⟨⟨rest ++ [renderLine stack 0 'E' ("Error closing logfile" ++ " err\x7b" ++ e ++ "\x7d")],
          cap, sw, some ⟨nm, fl, pm, false⟩, tag, pr, std, false, true⟩, t.day,
          (if std then [timestampStr t ++ msg] else []), [],
          [(⟨nm, fl, pm, false⟩, timestampStr t ++ msg)], false⟩ := by
  have hnl : ¬ pr < LOG_ERR := Nat.not_lt.mpr hpr
  simp [Log.daemonStep, Log.filePhase, Log.newFile, Log.daemonReport, Log.ERR,
    Log.anyErrToString, Log.LogLine, hnl, hd]

theorem c6_witness :
    Log.daemonStep ⟨["q\n"], 1000, none, some ⟨"app_2024-03-03.log", 1089, 384, false⟩,
        "GOLOGGER", 7, false, false, true⟩
      ⟨⟨9, 8, 7, 6, 2024, 3, 4⟩, "app", [], none, none, none, some "disk gone", none⟩ 3
    = some ⟨⟨["|E|<nf>():0 Error closing logfile err\x7bdisk gone\x7d\n"], 1000, none,
        some ⟨"app_2024-03-03.log", 1089, 384, false⟩, "GOLOGGER", 7, false, false, true⟩, 4,
        [], [], [(⟨"app_2024-03-03.log", 1089, 384, false⟩, "09:08:07.0006q\n")], false⟩ := by
  have h := c6_close_failure_not_fatal 1000 none "app_2024-03-03.log" 1089 384
    "GOLOGGER" 7 false ⟨9, 8, 7, 6, 2024, 3, 4⟩ "app" [] none none none "disk gone" "q\n" [] 3
    (by decide) (by decide)
  rw [h]
  decide
